import Mathlib

/-!
Verification of the solar PV dashboard / exporter repository.

Shallow embedding of:
* `src/app/prometheus_exporter.py` — batch exporter: CSV loader, derived-metric
  computation (total DC power, efficiency, 40/60 energy split) and the gauge
  registry update cycle;
* `src/app/dashboard.py` — the 40/60 dashboard exported / self-use split;
* `src/examples/live-ingestion-api/dashboard_live.py` and
  `src/examples/live-ingestion-api/exporter_live.py` — the two
  `calculate_estimated_solar_power` variants and the live gauge registry.

Machine floats of the Python source are modelled as exact rationals (batch
pipeline, which uses only field arithmetic) and as real numbers (the
irradiance heuristic, which uses `math.sin` and `math.pi`).
-/

/-! ### Data model: one CSV row of `data/pv_data.csv`

A `Sample` holds the numeric columns read by `update_metrics` in
`src/app/prometheus_exporter.py` (the `Datum`/`Uhrzeit` string columns are
not read by the exporter and are omitted). -/

/-- One row of the PV CSV: the numeric columns used by the batch exporter. -/
structure Sample where
  power_dc1 : ℚ      -- `Leistung_DC_1 (W)`
  power_dc2 : ℚ      -- `Leistung_DC_2 (W)`
  power_ac : ℚ       -- `Leistung_AC (W)`
  energy_today : ℚ   -- `Energie_Heute (kWh)`
  energy_total : ℚ   -- `Energie_Gesamt (kWh)`
  module_temp : ℚ    -- `Modultemperatur (°C)`
  ambient_temp : ℚ   -- `Umgebungstemperatur (°C)`
  voltage_dc1 : ℚ    -- `Spannung_DC_1 (V)`
  voltage_dc2 : ℚ    -- `Spannung_DC_2 (V)`
  deriving DecidableEq, Repr

/-- Python: `total_dc = latest["Leistung_DC_1 (W)"] + latest["Leistung_DC_2 (W)"]`
(`src/app/prometheus_exporter.py`, line 60). -/
def totalDC (s : Sample) : ℚ :=
  s.power_dc1 + s.power_dc2

/-- Efficiency value published by the batch exporter
(`src/app/prometheus_exporter.py`, lines 63–68): the AC/DC ratio times 100
when `total_dc > 0`, else the `else`-branch constant 0. -/
def efficiencyMetric (s : Sample) : ℚ :=
  if totalDC s > 0 then s.power_ac / totalDC s * 100 else 0

/-- Python: `pv_exported_energy.set(total_energy * 0.40)`
(`src/app/prometheus_exporter.py`, line 72). -/
def exportedEnergy (total_energy : ℚ) : ℚ :=
  total_energy * 0.40

/-- Python: `pv_self_use_energy.set(total_energy * 0.60)`
(`src/app/prometheus_exporter.py`, line 73). -/
def selfUseEnergy (total_energy : ℚ) : ℚ :=
  total_energy * 0.60

/-- Python: `total_exported = total_yield * 0.40` (`src/app/dashboard.py`, line 114). -/
def total_exported (total_yield : ℚ) : ℚ :=
  total_yield * 0.40

/-- Python: `total_self_use = total_yield * 0.60` (`src/app/dashboard.py`, line 115). -/
def total_self_use (total_yield : ℚ) : ℚ :=
  total_yield * 0.60

/-- A sample whose total DC power is negative: both claims about the
guard `total_dc > 0` are exercised on it. -/
def sampleNegDC : Sample :=
  ⟨-100, 0, 900, 0, 0, 0, 0, 0, 0⟩

/-- A sample realizing the spec scenario: total DC power 1000 W split
600/400, AC power 900 W. -/
def sampleScenario : Sample :=
  ⟨600, 400, 900, 0, 0, 0, 0, 0, 0⟩

/-- C1 (counterexample): the claim says the efficiency metric equals
`AC / totalDC * 100` for every sample with `totalDC ≠ 0`, but on a sample
with negative total DC power the guard `total_dc > 0` in the code takes the
`else` branch and publishes 0, not the ratio. -/
theorem c1_efficiency_counterexample :
    totalDC sampleNegDC ≠ 0 ∧
      efficiencyMetric sampleNegDC ≠
        sampleNegDC.power_ac / totalDC sampleNegDC * 100 := by
  constructor
  · norm_num [totalDC, sampleNegDC]
  · norm_num [efficiencyMetric, totalDC, sampleNegDC]

/-- C1 (amended): the efficiency metric equals `AC / totalDC * 100` whenever
total DC power is positive, and equals exactly 0 whenever total DC power is
`≤ 0` (the guard in the code is `total_dc > 0`, so zero and negative totals both
yield 0); the computation is total, and the scenario
total DC = 1000 W, AC = 900 W gives efficiency 90. -/
theorem c1_efficiency_amended (s : Sample) :
    (0 < totalDC s → efficiencyMetric s = s.power_ac / totalDC s * 100) ∧
    (totalDC s ≤ 0 → efficiencyMetric s = 0) ∧
    (totalDC s = 1000 → s.power_ac = 900 → efficiencyMetric s = 90) := by
  refine ⟨?_, ?_, ?_⟩
  · intro h
    simp [efficiencyMetric, h]
  · intro h
    have h' : ¬ totalDC s > 0 := not_lt.mpr h
    simp [efficiencyMetric, h']
  · intro h hac
    rw [efficiencyMetric, h, hac]
    norm_num

/-- C1 amended witness: the scenario sample has total DC 1000, AC 900 and
published efficiency 90. -/
theorem c1_efficiency_amended_witness :
    totalDC sampleScenario = 1000 ∧ sampleScenario.power_ac = 900 ∧
      efficiencyMetric sampleScenario = 90 :=
  ⟨by norm_num [totalDC, sampleScenario], by norm_num [sampleScenario],
    (c1_efficiency_amended sampleScenario).2.2
      (by norm_num [totalDC, sampleScenario]) (by norm_num [sampleScenario])⟩

/-- C2: for every total-yield value `Y ≥ 0`, exported (`Y * 0.40`) plus
self-use (`Y * 0.60`) reconstructs `Y` exactly, in the batch exporter and in
the dashboard. -/
theorem c2_split_reconstructs (Y : ℚ) (_hY : 0 ≤ Y) :
    exportedEnergy Y + selfUseEnergy Y = Y ∧
      total_exported Y + total_self_use Y = Y := by
  constructor
  · rw [exportedEnergy, selfUseEnergy]; ring
  · rw [total_exported, total_self_use]; ring

/-- C2 witness: the split reconstructs the concrete yield 7. -/
theorem c2_split_reconstructs_witness :
    (0 : ℚ) ≤ 7 ∧
      (exportedEnergy 7 + selfUseEnergy 7 = 7 ∧
        total_exported 7 + total_self_use 7 = 7) :=
  ⟨by norm_num, c2_split_reconstructs 7 (by norm_num)⟩

/-! ### Live-ingestion variants of `calculate_estimated_solar_power`

`src/examples/live-ingestion-api/dashboard_live.py` (lines 59–84) takes a
time of day (hour and minute) and a temperature; it normalizes the UV index
by 10 and applies a temperature derate.
`src/examples/live-ingestion-api/exporter_live.py` (lines 27–44) takes an
integer hour only; it normalizes the UV index by 11 and has no temperature
derate. -/

/-- Wall-clock time passed as `time_of_day` to the dashboard variant; only
`hour` and `minute` are read (line 73 of `dashboard_live.py`). -/
structure TimeOfDay where
  hour : ℕ
  minute : ℕ

namespace DashboardLive

/-- Python: `max_power = 5.0  # kW` (`dashboard_live.py`, line 64). -/
noncomputable def max_power : ℝ := 5.0

/-- Python: `cloud_factor = (100 - cloud_cover) / 100` (`dashboard_live.py`, line 67). -/
noncomputable def cloud_factor (cloud_cover : ℝ) : ℝ := (100 - cloud_cover) / 100

/-- Python: `uv_factor = min(uv_index / 10, 1.0)` (`dashboard_live.py`, line 70). -/
noncomputable def uv_factor (uv_index : ℝ) : ℝ := min (uv_index / 10) 1.0

/-- Python: `hour = time_of_day.hour + time_of_day.minute / 60`
(`dashboard_live.py`, line 73). -/
noncomputable def hourOf (time_of_day : TimeOfDay) : ℝ :=
  (time_of_day.hour : ℝ) + (time_of_day.minute : ℝ) / 60

/-- Time-of-day factor (`dashboard_live.py`, lines 74–78):
`abs(sin((hour - 6) * pi / 14))` inside `6 <= hour <= 20`, else 0. -/
noncomputable def time_factor (hour : ℝ) : ℝ :=
  if 6 ≤ hour ∧ hour ≤ 20 then |Real.sin ((hour - 6) * Real.pi / 14)| else 0

/-- Python: `temp_factor = 1 - (max(0, temp - 25) * 0.005)`
(`dashboard_live.py`, line 81). -/
noncomputable def temp_factor (temp : ℝ) : ℝ := 1 - max 0 (temp - 25) * 0.005

/-- Python: `calculate_estimated_solar_power` of `dashboard_live.py` (lines 59–84):
product of the four factors and the 5 kW nameplate, clamped by
`max(0, estimated_power)`. The Python default `temp=25` is passed explicitly
by callers of this embedding. -/
noncomputable def calculate_estimated_solar_power (cloud_cover uv_index : ℝ)
    (time_of_day : TimeOfDay) (temp : ℝ) : ℝ :=
  max 0 (max_power * cloud_factor cloud_cover * uv_factor uv_index *
    time_factor (hourOf time_of_day) * temp_factor temp)

end DashboardLive

namespace ExporterLive

/-- Python: `max_power = 5000  # Watts (5kW system)` (`exporter_live.py`, line 29). -/
noncomputable def max_power : ℝ := 5000

/-- Python: `cloud_factor = (100 - cloud_cover) / 100` (`exporter_live.py`, line 32). -/
noncomputable def cloud_factor (cloud_cover : ℝ) : ℝ := (100 - cloud_cover) / 100

/-- Python: `uv_factor = min(uv_index / 11, 1.0)` (`exporter_live.py`, line 35). -/
noncomputable def uv_factor (uv_index : ℝ) : ℝ := min (uv_index / 11) 1.0

/-- Time-of-day factor (`exporter_live.py`, lines 38–41): the hour is the
integer `datetime.now().hour`. -/
noncomputable def time_factor (current_hour : ℕ) : ℝ :=
  if 6 ≤ current_hour ∧ current_hour ≤ 20 then
    |Real.sin (((current_hour : ℝ) - 6) * Real.pi / 14)|
  else 0

/-- Python: `calculate_estimated_solar_power` of `exporter_live.py` (lines 27–44):
three factors only — no temperature derate — clamped by `max(0, ...)`. -/
noncomputable def calculate_estimated_solar_power (cloud_cover uv_index : ℝ)
    (current_hour : ℕ) : ℝ :=
  max 0 (max_power * cloud_factor cloud_cover * uv_factor uv_index *
    time_factor current_hour)

end ExporterLive

/-! ### Shared facts about the estimated-power factors -/

/-- Clamped products compare monotonically in a nonnegative left factor,
whatever the sign of the shared right factor. -/
lemma max_zero_mul_le_max_zero_mul {x y t : ℝ} (hx : 0 ≤ x) (hxy : x ≤ y) :
    max 0 (x * t) ≤ max 0 (y * t) := by
  rcases le_or_lt 0 t with ht | ht
  · exact max_le_max le_rfl (mul_le_mul_of_nonneg_right hxy ht)
  · have hx0 : x * t ≤ 0 := mul_nonpos_iff.mpr (Or.inl ⟨hx, ht.le⟩)
    have h0 : max 0 (x * t) = 0 := max_eq_left hx0
    rw [h0]
    exact le_max_left 0 _

/-- A product of a nonnegative scale with four factors bounded by one, the
first three nonnegative, never exceeds the scale. -/
lemma mul_four_factors_le {M a b c d : ℝ} (hM : 0 ≤ M)
    (ha0 : 0 ≤ a) (ha1 : a ≤ 1) (hb0 : 0 ≤ b) (hb1 : b ≤ 1)
    (hc0 : 0 ≤ c) (hc1 : c ≤ 1) (hd1 : d ≤ 1) :
    M * a * b * c * d ≤ M := by
  rcases le_or_lt d 0 with hd | hd
  · have h1 : 0 ≤ M * a * b * c :=
      mul_nonneg (mul_nonneg (mul_nonneg hM ha0) hb0) hc0
    have h2 : M * a * b * c * d ≤ 0 := mul_nonpos_iff.mpr (Or.inl ⟨h1, hd⟩)
    linarith
  · have hab : a * b ≤ 1 := by nlinarith
    have hab0 : 0 ≤ a * b := mul_nonneg ha0 hb0
    have hcd : c * d ≤ 1 := by nlinarith
    have hcd0 : 0 ≤ c * d := mul_nonneg hc0 hd.le
    have habcd : a * b * (c * d) ≤ 1 := by nlinarith
    have hMle : M * (a * b * (c * d)) ≤ M * 1 :=
      mul_le_mul_of_nonneg_left habcd hM
    calc M * a * b * c * d = M * (a * b * (c * d)) := by ring
    _ ≤ M * 1 := hMle
    _ = M := mul_one M

namespace DashboardLive

lemma dash_cloud_factor_nonneg {c : ℝ} (h : c ≤ 100) : 0 ≤ cloud_factor c := by
  unfold cloud_factor
  linarith

lemma dash_cloud_factor_le_one {c : ℝ} (h : 0 ≤ c) : cloud_factor c ≤ 1 := by
  unfold cloud_factor
  linarith

lemma dash_cloud_factor_anti {c₁ c₂ : ℝ} (h : c₁ ≤ c₂) :
    cloud_factor c₂ ≤ cloud_factor c₁ := by
  unfold cloud_factor
  linarith

lemma dash_uv_factor_nonneg {u : ℝ} (h : 0 ≤ u) : 0 ≤ uv_factor u := by
  unfold uv_factor
  have : (0 : ℝ) ≤ u / 10 := by positivity
  have h1 : (0 : ℝ) ≤ (1.0 : ℝ) := by norm_num
  exact le_min this h1

lemma dash_uv_factor_le_one (u : ℝ) : uv_factor u ≤ 1 := by
  unfold uv_factor
  have := min_le_right (u / 10) (1.0 : ℝ)
  calc min (u / 10) (1.0 : ℝ) ≤ (1.0 : ℝ) := this
  _ = 1 := by norm_num

lemma dash_uv_factor_mono {u₁ u₂ : ℝ} (h : u₁ ≤ u₂) : uv_factor u₁ ≤ uv_factor u₂ := by
  unfold uv_factor
  exact min_le_min (by linarith) le_rfl

lemma dash_time_factor_nonneg (hr : ℝ) : 0 ≤ time_factor hr := by
  unfold time_factor
  split
  · exact abs_nonneg _
  · exact le_rfl

lemma dash_time_factor_le_one (hr : ℝ) : time_factor hr ≤ 1 := by
  unfold time_factor
  split
  · exact Real.abs_sin_le_one _
  · norm_num

lemma dash_temp_factor_le_one (temp : ℝ) : temp_factor temp ≤ 1 := by
  unfold temp_factor
  have h1 : (0 : ℝ) ≤ max 0 (temp - 25) := le_max_left 0 _
  nlinarith

end DashboardLive

namespace ExporterLive

lemma exp_cloud_factor_nonneg {c : ℝ} (h : c ≤ 100) : 0 ≤ cloud_factor c := by
  unfold cloud_factor
  linarith

lemma exp_cloud_factor_le_one {c : ℝ} (h : 0 ≤ c) : cloud_factor c ≤ 1 := by
  unfold cloud_factor
  linarith

lemma exp_cloud_factor_anti {c₁ c₂ : ℝ} (h : c₁ ≤ c₂) :
    cloud_factor c₂ ≤ cloud_factor c₁ := by
  unfold cloud_factor
  linarith

lemma exp_uv_factor_nonneg {u : ℝ} (h : 0 ≤ u) : 0 ≤ uv_factor u := by
  unfold uv_factor
  have : (0 : ℝ) ≤ u / 11 := by positivity
  have h1 : (0 : ℝ) ≤ (1.0 : ℝ) := by norm_num
  exact le_min this h1

lemma exp_uv_factor_le_one (u : ℝ) : uv_factor u ≤ 1 := by
  unfold uv_factor
  have := min_le_right (u / 11) (1.0 : ℝ)
  calc min (u / 11) (1.0 : ℝ) ≤ (1.0 : ℝ) := this
  _ = 1 := by norm_num

lemma exp_uv_factor_mono {u₁ u₂ : ℝ} (h : u₁ ≤ u₂) : uv_factor u₁ ≤ uv_factor u₂ := by
  unfold uv_factor
  exact min_le_min (by linarith) le_rfl

lemma exp_time_factor_nonneg (hr : ℕ) : 0 ≤ time_factor hr := by
  unfold time_factor
  split
  · exact abs_nonneg _
  · exact le_rfl

lemma exp_time_factor_le_one (hr : ℕ) : time_factor hr ≤ 1 := by
  unfold time_factor
  split
  · exact Real.abs_sin_le_one _
  · norm_num

end ExporterLive

namespace DashboardLive

lemma dash_estimated_anti_cloud {c₁ c₂ u temp : ℝ} {t : TimeOfDay}
    (h12 : c₁ ≤ c₂) (h100 : c₂ ≤ 100) :
    calculate_estimated_solar_power c₂ u t temp ≤
      calculate_estimated_solar_power c₁ u t temp := by
  unfold calculate_estimated_solar_power
  have e₂ : max_power * cloud_factor c₂ * uv_factor u * time_factor (hourOf t) *
        temp_factor temp
      = cloud_factor c₂ *
        (max_power * uv_factor u * time_factor (hourOf t) * temp_factor temp) := by
    ring
  have e₁ : max_power * cloud_factor c₁ * uv_factor u * time_factor (hourOf t) *
        temp_factor temp
      = cloud_factor c₁ *
        (max_power * uv_factor u * time_factor (hourOf t) * temp_factor temp) := by
    ring
  rw [e₂, e₁]
  exact max_zero_mul_le_max_zero_mul (dash_cloud_factor_nonneg h100) (dash_cloud_factor_anti h12)

lemma dash_estimated_mono_uv {c u₁ u₂ temp : ℝ} {t : TimeOfDay}
    (hu0 : 0 ≤ u₁) (hu : u₁ ≤ u₂) :
    calculate_estimated_solar_power c u₁ t temp ≤
      calculate_estimated_solar_power c u₂ t temp := by
  unfold calculate_estimated_solar_power
  have e₁ : max_power * cloud_factor c * uv_factor u₁ * time_factor (hourOf t) *
        temp_factor temp
      = uv_factor u₁ *
        (max_power * cloud_factor c * time_factor (hourOf t) * temp_factor temp) := by
    ring
  have e₂ : max_power * cloud_factor c * uv_factor u₂ * time_factor (hourOf t) *
        temp_factor temp
      = uv_factor u₂ *
        (max_power * cloud_factor c * time_factor (hourOf t) * temp_factor temp) := by
    ring
  rw [e₁, e₂]
  exact max_zero_mul_le_max_zero_mul (dash_uv_factor_nonneg hu0) (dash_uv_factor_mono hu)

lemma dash_estimated_nonneg (c u temp : ℝ) (t : TimeOfDay) :
    0 ≤ calculate_estimated_solar_power c u t temp := by
  unfold calculate_estimated_solar_power
  exact le_max_left 0 _

lemma dash_estimated_le_nameplate {c u temp : ℝ} {t : TimeOfDay}
    (hc0 : 0 ≤ c) (hc1 : c ≤ 100) (hu : 0 ≤ u) :
    calculate_estimated_solar_power c u t temp ≤ 5 := by
  unfold calculate_estimated_solar_power
  apply max_le (by norm_num)
  have h5 : max_power = 5 := by unfold max_power; norm_num
  rw [h5]
  exact mul_four_factors_le (by norm_num) (dash_cloud_factor_nonneg hc1)
    (dash_cloud_factor_le_one hc0) (dash_uv_factor_nonneg hu) (dash_uv_factor_le_one u)
    (dash_time_factor_nonneg _) (dash_time_factor_le_one _) (dash_temp_factor_le_one temp)

end DashboardLive

namespace ExporterLive

lemma exp_estimated_anti_cloud {c₁ c₂ u : ℝ} {hr : ℕ}
    (h12 : c₁ ≤ c₂) (h100 : c₂ ≤ 100) :
    calculate_estimated_solar_power c₂ u hr ≤
      calculate_estimated_solar_power c₁ u hr := by
  unfold calculate_estimated_solar_power
  have e₂ : max_power * cloud_factor c₂ * uv_factor u * time_factor hr
      = cloud_factor c₂ * (max_power * uv_factor u * time_factor hr) := by ring
  have e₁ : max_power * cloud_factor c₁ * uv_factor u * time_factor hr
      = cloud_factor c₁ * (max_power * uv_factor u * time_factor hr) := by ring
  rw [e₂, e₁]
  exact max_zero_mul_le_max_zero_mul (exp_cloud_factor_nonneg h100) (exp_cloud_factor_anti h12)

lemma exp_estimated_mono_uv {c u₁ u₂ : ℝ} {hr : ℕ} (hu0 : 0 ≤ u₁) (hu : u₁ ≤ u₂) :
    calculate_estimated_solar_power c u₁ hr ≤
      calculate_estimated_solar_power c u₂ hr := by
  unfold calculate_estimated_solar_power
  have e₁ : max_power * cloud_factor c * uv_factor u₁ * time_factor hr
      = uv_factor u₁ * (max_power * cloud_factor c * time_factor hr) := by ring
  have e₂ : max_power * cloud_factor c * uv_factor u₂ * time_factor hr
      = uv_factor u₂ * (max_power * cloud_factor c * time_factor hr) := by ring
  rw [e₁, e₂]
  exact max_zero_mul_le_max_zero_mul (exp_uv_factor_nonneg hu0) (exp_uv_factor_mono hu)

lemma exp_estimated_nonneg (c u : ℝ) (hr : ℕ) :
    0 ≤ calculate_estimated_solar_power c u hr := by
  unfold calculate_estimated_solar_power
  exact le_max_left 0 _

lemma exp_estimated_le_nameplate {c u : ℝ} {hr : ℕ}
    (hc0 : 0 ≤ c) (hc1 : c ≤ 100) (hu : 0 ≤ u) :
    calculate_estimated_solar_power c u hr ≤ 5000 := by
  unfold calculate_estimated_solar_power
  apply max_le (by norm_num)
  have e : max_power * cloud_factor c * uv_factor u * time_factor hr
      = max_power * cloud_factor c * uv_factor u * time_factor hr * 1 := by ring
  have h5 : max_power = 5000 := by unfold max_power; norm_num
  rw [e, h5]
  exact mul_four_factors_le (by norm_num) (exp_cloud_factor_nonneg hc1)
    (exp_cloud_factor_le_one hc0) (exp_uv_factor_nonneg hu) (exp_uv_factor_le_one u)
    (exp_time_factor_nonneg _) (exp_time_factor_le_one _) le_rfl

end ExporterLive

/-- C3: with the other arguments held fixed, each estimated-power variant is
monotonically non-increasing in cloud cover on [0,100], non-decreasing in the
UV index from 0 up (the `min` clamp preserves monotonicity), and nonnegative
thanks to the `max(0, ...)` clamp. -/
theorem c3_monotone_nonneg :
    (∀ (c₁ c₂ u temp : ℝ) (t : TimeOfDay), 0 ≤ c₁ → c₁ ≤ c₂ → c₂ ≤ 100 → 0 ≤ u →
        DashboardLive.calculate_estimated_solar_power c₂ u t temp ≤
          DashboardLive.calculate_estimated_solar_power c₁ u t temp) ∧
    (∀ (c u₁ u₂ temp : ℝ) (t : TimeOfDay), 0 ≤ c → c ≤ 100 → 0 ≤ u₁ → u₁ ≤ u₂ →
        DashboardLive.calculate_estimated_solar_power c u₁ t temp ≤
          DashboardLive.calculate_estimated_solar_power c u₂ t temp) ∧
    (∀ (c u temp : ℝ) (t : TimeOfDay), 0 ≤ c → c ≤ 100 → 0 ≤ u →
        0 ≤ DashboardLive.calculate_estimated_solar_power c u t temp) ∧
    (∀ (c₁ c₂ u : ℝ) (hr : ℕ), 0 ≤ c₁ → c₁ ≤ c₂ → c₂ ≤ 100 → 0 ≤ u →
        ExporterLive.calculate_estimated_solar_power c₂ u hr ≤
          ExporterLive.calculate_estimated_solar_power c₁ u hr) ∧
    (∀ (c u₁ u₂ : ℝ) (hr : ℕ), 0 ≤ c → c ≤ 100 → 0 ≤ u₁ → u₁ ≤ u₂ →
        ExporterLive.calculate_estimated_solar_power c u₁ hr ≤
          ExporterLive.calculate_estimated_solar_power c u₂ hr) ∧
    (∀ (c u : ℝ) (hr : ℕ), 0 ≤ c → c ≤ 100 → 0 ≤ u →
        0 ≤ ExporterLive.calculate_estimated_solar_power c u hr) := by
  refine ⟨?_, ?_, ?_, ?_, ?_, ?_⟩
  · intro c₁ c₂ u temp t _ h12 h100 _
    exact DashboardLive.dash_estimated_anti_cloud h12 h100
  · intro c u₁ u₂ temp t _ _ hu0 hu
    exact DashboardLive.dash_estimated_mono_uv hu0 hu
  · intro c u temp t _ _ _
    exact DashboardLive.dash_estimated_nonneg c u temp t
  · intro c₁ c₂ u hr _ h12 h100 _
    exact ExporterLive.exp_estimated_anti_cloud h12 h100
  · intro c u₁ u₂ hr _ _ hu0 hu
    exact ExporterLive.exp_estimated_mono_uv hu0 hu
  · intro c u hr _ _ _
    exact ExporterLive.exp_estimated_nonneg c u hr

/-- C3 witness: concrete instances of all six monotonicity / nonnegativity
parts at cloud covers 10 ≤ 50, UV indices 2 ≤ 8, hour 12:30 / 10. -/
theorem c3_monotone_nonneg_witness :
    DashboardLive.calculate_estimated_solar_power 50 3 ⟨12, 30⟩ 30 ≤
        DashboardLive.calculate_estimated_solar_power 10 3 ⟨12, 30⟩ 30 ∧
      DashboardLive.calculate_estimated_solar_power 40 2 ⟨12, 30⟩ 30 ≤
        DashboardLive.calculate_estimated_solar_power 40 8 ⟨12, 30⟩ 30 ∧
      0 ≤ DashboardLive.calculate_estimated_solar_power 40 2 ⟨12, 30⟩ 30 ∧
      ExporterLive.calculate_estimated_solar_power 50 3 10 ≤
        ExporterLive.calculate_estimated_solar_power 10 3 10 ∧
      ExporterLive.calculate_estimated_solar_power 40 2 10 ≤
        ExporterLive.calculate_estimated_solar_power 40 8 10 ∧
      0 ≤ ExporterLive.calculate_estimated_solar_power 40 2 10 :=
  ⟨c3_monotone_nonneg.1 10 50 3 30 ⟨12, 30⟩ (by norm_num) (by norm_num)
      (by norm_num) (by norm_num),
    c3_monotone_nonneg.2.1 40 2 8 30 ⟨12, 30⟩ (by norm_num) (by norm_num)
      (by norm_num) (by norm_num),
    c3_monotone_nonneg.2.2.1 40 2 30 ⟨12, 30⟩ (by norm_num) (by norm_num)
      (by norm_num),
    c3_monotone_nonneg.2.2.2.1 10 50 3 10 (by norm_num) (by norm_num)
      (by norm_num) (by norm_num),
    c3_monotone_nonneg.2.2.2.2.1 40 2 8 10 (by norm_num) (by norm_num)
      (by norm_num) (by norm_num),
    c3_monotone_nonneg.2.2.2.2.2 40 2 10 (by norm_num) (by norm_num)
      (by norm_num)⟩

/-- C10: for cloud cover in [0,100], UV index ≥ 0, any hour and any
temperature, the estimated power never exceeds the nameplate maximum —
5 kW for the dashboard variant, 5000 W for the exporter variant. -/
theorem c10_nameplate_bound :
    (∀ (c u temp : ℝ) (t : TimeOfDay), 0 ≤ c → c ≤ 100 → 0 ≤ u →
        DashboardLive.calculate_estimated_solar_power c u t temp ≤ 5) ∧
    (∀ (c u : ℝ) (hr : ℕ), 0 ≤ c → c ≤ 100 → 0 ≤ u →
        ExporterLive.calculate_estimated_solar_power c u hr ≤ 5000) := by
  constructor
  · intro c u temp t hc0 hc1 hu
    exact DashboardLive.dash_estimated_le_nameplate hc0 hc1 hu
  · intro c u hr hc0 hc1 hu
    exact ExporterLive.exp_estimated_le_nameplate hc0 hc1 hu

/-- C10 witness: both nameplate bounds at cloud cover 20, UV index 9,
hour 14 / 14:15, temperature 31. -/
theorem c10_nameplate_bound_witness :
    DashboardLive.calculate_estimated_solar_power 20 9 ⟨14, 15⟩ 31 ≤ 5 ∧
      ExporterLive.calculate_estimated_solar_power 20 9 14 ≤ 5000 :=
  ⟨c10_nameplate_bound.1 20 9 31 ⟨14, 15⟩ (by norm_num) (by norm_num)
      (by norm_num),
    c10_nameplate_bound.2 20 9 14 (by norm_num) (by norm_num) (by norm_num)⟩

namespace DashboardLive

lemma dash_time_factor_eq_zero {hr : ℝ} (h : hr < 6 ∨ 20 < hr) : time_factor hr = 0 := by
  unfold time_factor
  rw [if_neg]
  rintro ⟨h1, h2⟩
  rcases h with h | h
  · linarith
  · linarith

lemma dash_time_factor_thirteen : time_factor 13 = 1 := by
  unfold time_factor
  rw [if_pos (by norm_num : (6 : ℝ) ≤ 13 ∧ (13 : ℝ) ≤ 20)]
  have e : ((13 : ℝ) - 6) * Real.pi / 14 = Real.pi / 2 := by ring
  rw [e, Real.sin_pi_div_two]
  exact abs_one

lemma dash_estimated_eq_zero_of_time {c u temp : ℝ} {t : TimeOfDay}
    (h : time_factor (hourOf t) = 0) :
    calculate_estimated_solar_power c u t temp = 0 := by
  unfold calculate_estimated_solar_power
  rw [h]
  simp

end DashboardLive

namespace ExporterLive

lemma exp_time_factor_eq_zero {hr : ℕ} (h : hr < 6 ∨ 20 < hr) : time_factor hr = 0 := by
  unfold time_factor
  rw [if_neg]
  rintro ⟨h1, h2⟩
  rcases h with h | h
  · omega
  · omega

lemma exp_time_factor_thirteen : time_factor 13 = 1 := by
  unfold time_factor
  rw [if_pos (by norm_num : 6 ≤ 13 ∧ 13 ≤ 20)]
  have e : (((13 : ℕ) : ℝ) - 6) * Real.pi / 14 = Real.pi / 2 := by
    push_cast
    ring
  rw [e, Real.sin_pi_div_two]
  exact abs_one

lemma exp_estimated_eq_zero_of_time {c u : ℝ} {hr : ℕ} (h : time_factor hr = 0) :
    calculate_estimated_solar_power c u hr = 0 := by
  unfold calculate_estimated_solar_power
  rw [h]
  simp

end ExporterLive

/-- C4: outside the daylight window — fractional hour below 6 or above 20 in
the dashboard variant, integer hour below 6 or above 20 in the exporter
variant — the estimated power is exactly 0 regardless of the other inputs;
inside [6,20] the time factor is `|sin((hour − 6)·π/14)|`, and it peaks at
hour 13, where it reaches its maximum value 1. -/
theorem c4_daylight_window :
    (∀ (c u temp : ℝ) (t : TimeOfDay),
        DashboardLive.hourOf t < 6 ∨ 20 < DashboardLive.hourOf t →
        DashboardLive.calculate_estimated_solar_power c u t temp = 0) ∧
    (∀ (c u : ℝ) (hr : ℕ), hr < 6 ∨ 20 < hr →
        ExporterLive.calculate_estimated_solar_power c u hr = 0) ∧
    (∀ hr : ℝ, 6 ≤ hr → hr ≤ 20 →
        DashboardLive.time_factor hr = |Real.sin ((hr - 6) * Real.pi / 14)|) ∧
    (∀ hr : ℕ, 6 ≤ hr → hr ≤ 20 →
        ExporterLive.time_factor hr =
          |Real.sin (((hr : ℝ) - 6) * Real.pi / 14)|) ∧
    DashboardLive.time_factor 13 = 1 ∧
    ExporterLive.time_factor 13 = 1 ∧
    (∀ hr : ℝ, DashboardLive.time_factor hr ≤ 1) ∧
    (∀ hr : ℕ, ExporterLive.time_factor hr ≤ 1) := by
  refine ⟨?_, ?_, ?_, ?_, ?_, ?_, ?_, ?_⟩
  · intro c u temp t h
    exact DashboardLive.dash_estimated_eq_zero_of_time
      (DashboardLive.dash_time_factor_eq_zero h)
  · intro c u hr h
    exact ExporterLive.exp_estimated_eq_zero_of_time
      (ExporterLive.exp_time_factor_eq_zero h)
  · intro hr h1 h2
    unfold DashboardLive.time_factor
    rw [if_pos ⟨h1, h2⟩]
  · intro hr h1 h2
    unfold ExporterLive.time_factor
    rw [if_pos ⟨h1, h2⟩]
  · exact DashboardLive.dash_time_factor_thirteen
  · exact ExporterLive.exp_time_factor_thirteen
  · intro hr
    exact DashboardLive.dash_time_factor_le_one hr
  · intro hr
    exact ExporterLive.exp_time_factor_le_one hr

/-- C4 witness: power is 0 at 03:00 (dashboard) and at hour 22 (exporter),
and at hour 10 both time factors take the sine form. -/
theorem c4_daylight_window_witness :
    DashboardLive.calculate_estimated_solar_power 50 5 ⟨3, 0⟩ 25 = 0 ∧
      ExporterLive.calculate_estimated_solar_power 50 5 22 = 0 ∧
      DashboardLive.time_factor 10 =
        |Real.sin (((10 : ℝ) - 6) * Real.pi / 14)| ∧
      ExporterLive.time_factor 10 =
        |Real.sin ((((10 : ℕ) : ℝ) - 6) * Real.pi / 14)| :=
  ⟨c4_daylight_window.1 50 5 25 ⟨3, 0⟩
      (Or.inl (by norm_num [DashboardLive.hourOf])),
    c4_daylight_window.2.1 50 5 22 (Or.inr (by norm_num)),
    c4_daylight_window.2.2.1 10 (by norm_num) (by norm_num),
    c4_daylight_window.2.2.2.1 10 (by norm_num) (by norm_num)⟩

/-- C8: at cloud cover 0, UV index 11, hour 13 (temperature at the Python
default 25 °C in the dashboard variant), each variant reaches its nameplate
maximum exactly: 5 (kW) with the `uv/10` divisor and 5000 (W) with the
`uv/11` divisor. -/
theorem c8_nameplate_scenario :
    DashboardLive.calculate_estimated_solar_power 0 11 ⟨13, 0⟩ 25 = 5 ∧
      ExporterLive.calculate_estimated_solar_power 0 11 13 = 5000 := by
  constructor
  · unfold DashboardLive.calculate_estimated_solar_power
    have hh : DashboardLive.hourOf ⟨13, 0⟩ = 13 := by
      unfold DashboardLive.hourOf
      norm_num
    have hcf : DashboardLive.cloud_factor 0 = 1 := by
      unfold DashboardLive.cloud_factor
      norm_num
    have huf : DashboardLive.uv_factor 11 = 1 := by
      unfold DashboardLive.uv_factor
      rw [min_eq_right (by norm_num : (1.0 : ℝ) ≤ 11 / 10)]
      norm_num
    have hte : DashboardLive.temp_factor 25 = 1 := by
      unfold DashboardLive.temp_factor
      norm_num
    rw [hh, hcf, huf, hte, DashboardLive.dash_time_factor_thirteen]
    unfold DashboardLive.max_power
    have e : (5.0 : ℝ) * 1 * 1 * 1 * 1 = 5 := by norm_num
    rw [e]
    exact max_eq_right (by norm_num)
  · unfold ExporterLive.calculate_estimated_solar_power
    have hcf : ExporterLive.cloud_factor 0 = 1 := by
      unfold ExporterLive.cloud_factor
      norm_num
    have huf : ExporterLive.uv_factor 11 = 1 := by
      unfold ExporterLive.uv_factor
      rw [min_eq_right (by norm_num : (1.0 : ℝ) ≤ 11 / 11)]
      norm_num
    rw [hcf, huf, ExporterLive.exp_time_factor_thirteen]
    unfold ExporterLive.max_power
    have e : (5000 : ℝ) * 1 * 1 * 1 = 5000 := by norm_num
    rw [e]
    exact max_eq_right (by norm_num)

/-- C7: the two variants are distinct functions — the dashboard divides the
UV index by 10 and applies the temperature derate, the exporter divides by
11 and has none — and after scaling the dashboard kilowatts to watts there
is an input (cloud 0, UV 10, hour 13, dashboard temperature at its default
25) on which they disagree. -/
theorem c7_variants_disagree :
    (∀ u : ℝ, DashboardLive.uv_factor u = min (u / 10) 1) ∧
    (∀ u : ℝ, ExporterLive.uv_factor u = min (u / 11) 1) ∧
    (∀ temp : ℝ, DashboardLive.temp_factor temp = 1 - max 0 (temp - 25) * 0.005) ∧
    (∃ (c u : ℝ) (hr : ℕ),
      1000 * DashboardLive.calculate_estimated_solar_power c u ⟨hr, 0⟩ 25 ≠
        ExporterLive.calculate_estimated_solar_power c u hr) := by
  refine ⟨?_, ?_, ?_, ⟨0, 10, 13, ?_⟩⟩
  · intro u
    unfold DashboardLive.uv_factor
    norm_num
  · intro u
    unfold ExporterLive.uv_factor
    norm_num
  · intro temp
    unfold DashboardLive.temp_factor
    norm_num
  · have hdash : DashboardLive.calculate_estimated_solar_power 0 10 ⟨13, 0⟩ 25 = 5 := by
      unfold DashboardLive.calculate_estimated_solar_power
      have hh : DashboardLive.hourOf ⟨13, 0⟩ = 13 := by
        unfold DashboardLive.hourOf
        norm_num
      have hcf : DashboardLive.cloud_factor 0 = 1 := by
        unfold DashboardLive.cloud_factor
        norm_num
      have huf : DashboardLive.uv_factor 10 = 1 := by
        unfold DashboardLive.uv_factor
        rw [min_eq_right (by norm_num : (1.0 : ℝ) ≤ 10 / 10)]
        norm_num
      have hte : DashboardLive.temp_factor 25 = 1 := by
        unfold DashboardLive.temp_factor
        norm_num
      rw [hh, hcf, huf, hte, DashboardLive.dash_time_factor_thirteen]
      unfold DashboardLive.max_power
      have e : (5.0 : ℝ) * 1 * 1 * 1 * 1 = 5 := by norm_num
      rw [e]
      exact max_eq_right (by norm_num)
    have hexp : ExporterLive.calculate_estimated_solar_power 0 10 13 = 50000 / 11 := by
      unfold ExporterLive.calculate_estimated_solar_power
      have hcf : ExporterLive.cloud_factor 0 = 1 := by
        unfold ExporterLive.cloud_factor
        norm_num
      have huf : ExporterLive.uv_factor 10 = 10 / 11 := by
        unfold ExporterLive.uv_factor
        rw [min_eq_left (by norm_num : (10 : ℝ) / 11 ≤ 1.0)]
      rw [hcf, huf, ExporterLive.exp_time_factor_thirteen]
      unfold ExporterLive.max_power
      have e : (5000 : ℝ) * 1 * (10 / 11) * 1 = 50000 / 11 := by norm_num
      rw [e]
      exact max_eq_right (by norm_num)
    rw [hdash, hexp]
    norm_num

/-! ### Gauge registry and the exporter cycles

`prometheus_client` keeps a process-wide registry: each `Gauge(name, desc)`
call at module level registers one named gauge (initial value 0), and
`.set(v)` overwrites the value of an existing gauge. The registry is modelled
as an association list in registration order. -/

/-- A gauge registry: named gauges with their current values, in
registration order. -/
abbrev Registry (α : Type) : Type := List (String × α)

/-- Python: `Gauge(name, desc)`: registers one more gauge with its initial value. -/
def register {α : Type} (r : Registry α) (name : String) (v : α) : Registry α :=
  r ++ [(name, v)]

/-- Python: `gauge.set(v)`: overwrite the value of the gauge named `name`; no new
gauge is ever created. -/
def setGauge {α : Type} (r : Registry α) (name : String) (v : α) : Registry α :=
  r.map fun p => if p.1 = name then (p.1, v) else p

/-- Current value of the gauge named `name`, if registered. -/
def getGauge {α : Type} : Registry α → String → Option α
  | [], _ => none
  | p :: r, name => if p.1 = name then some p.2 else getGauge r name

/-- The registered gauge names, in registration order. -/
def gaugeNames {α : Type} (r : Registry α) : List String :=
  r.map Prod.fst

/-- Names of the thirteen gauges of `src/app/prometheus_exporter.py`
(lines 12–26), in declaration order. -/
def batchGaugeNames : List String :=
  ["pv_power_dc1_watts", "pv_power_dc2_watts", "pv_power_ac_watts",
   "pv_energy_today_kwh", "pv_energy_total_kwh",
   "pv_module_temperature_celsius", "pv_ambient_temperature_celsius",
   "pv_voltage_dc1_volts", "pv_voltage_dc2_volts",
   "pv_total_dc_power_watts", "pv_efficiency_percent",
   "pv_exported_energy_kwh", "pv_self_use_energy_kwh"]

/-- The registry as it stands after the module-level `Gauge(...)` calls of
`prometheus_exporter.py` run once at import. -/
def batchStartupRegistry : Registry ℚ :=
  batchGaugeNames.foldl (fun r n => register r n 0) []

/-- Columns read by `update_metrics` (`prometheus_exporter.py`, lines
49–71), in first-access order. -/
def expectedColumns : List String :=
  ["Leistung_DC_1 (W)", "Leistung_DC_2 (W)", "Leistung_AC (W)",
   "Energie_Heute (kWh)", "Energie_Gesamt (kWh)", "Modultemperatur (°C)",
   "Umgebungstemperatur (°C)", "Spannung_DC_1 (V)", "Spannung_DC_2 (V)"]

/-- A parsed CSV as `pd.read_csv` returns it: the usable columns of the
header and the data rows. `read_csv` happily parses files whose header does
not cover `expectedColumns`, so `columns` is arbitrary; an access
`latest[col]` raises `KeyError` iff `col ∉ columns`. A present column whose
cell cannot be coerced to float makes the following `gauge.set(...)` raise
at the same program point, so such a column is also modelled as missing
from `columns`; `Sample` fields of absent columns are never read. -/
structure PvFrame where
  columns : List String
  rows : List Sample

/-- Possible states of `data/pv_data.csv` as seen by the loader:
`missing`/`empty`/`malformed` make `pd.read_csv` raise (no file, no columns
to parse, tokenization error), while `ok` is any file `read_csv` parses —
including files whose header violates the column contract. -/
inductive FileState : Type
  | missing : FileState
  | empty : FileState
  | malformed : FileState
  | ok : PvFrame → FileState

/-- Python: `load_pv_data` (`prometheus_exporter.py`, lines 28–36): when
`pd.read_csv` raises, the `except` branch returns `None`; any parseable
file — contract-violating headers included — is returned as a frame (a
header-only file yields `ok ⟨cols, []⟩`, an empty pandas `DataFrame`). -/
def load_pv_data : FileState → Option PvFrame
  | FileState.missing => none
  | FileState.empty => none
  | FileState.malformed => none
  | FileState.ok df => some df

/-- Python: `update_metrics` (`prometheus_exporter.py`, lines 38–76): with
`None` or an empty frame it returns before touching any gauge; otherwise it
`.set`s the gauges in source order (lines 49–73), reading the last row
(`df.iloc[-1]`) for the per-sample metrics and the whole
`Energie_Heute (kWh)` column sum for the energy split. Each column access
can raise (`KeyError`, or the float coercion in `.set`): the exception
escapes to the caller at that point, leaving the gauges already set — the
nested guards return the registry as the loop's `except` observes it.
Lines 60–73 reuse only columns already accessed in lines 49–57, so once the
nine accesses succeed the rest of the update cannot raise. -/
def update_metrics (df : Option PvFrame) (r : Registry ℚ) : Registry ℚ :=
  match df with
  | none => r
  | some df =>
    match df.rows with
    | [] => r
    | row :: rest =>
      let latest := rest.getLastD row
      if "Leistung_DC_1 (W)" ∈ df.columns then
        let r := setGauge r "pv_power_dc1_watts" latest.power_dc1
        if "Leistung_DC_2 (W)" ∈ df.columns then
          let r := setGauge r "pv_power_dc2_watts" latest.power_dc2
          if "Leistung_AC (W)" ∈ df.columns then
            let r := setGauge r "pv_power_ac_watts" latest.power_ac
            if "Energie_Heute (kWh)" ∈ df.columns then
              let r := setGauge r "pv_energy_today_kwh" latest.energy_today
              if "Energie_Gesamt (kWh)" ∈ df.columns then
                let r := setGauge r "pv_energy_total_kwh" latest.energy_total
                if "Modultemperatur (°C)" ∈ df.columns then
                  let r := setGauge r "pv_module_temperature_celsius"
                    latest.module_temp
                  if "Umgebungstemperatur (°C)" ∈ df.columns then
                    let r := setGauge r "pv_ambient_temperature_celsius"
                      latest.ambient_temp
                    if "Spannung_DC_1 (V)" ∈ df.columns then
                      let r := setGauge r "pv_voltage_dc1_volts"
                        latest.voltage_dc1
                      if "Spannung_DC_2 (V)" ∈ df.columns then
                        let r := setGauge r "pv_voltage_dc2_volts"
                          latest.voltage_dc2
                        let r := setGauge r "pv_total_dc_power_watts"
                          (totalDC latest)
                        let r := setGauge r "pv_efficiency_percent"
                          (efficiencyMetric latest)
                        let total_energy :=
                          ((row :: rest).map Sample.energy_today).sum
                        let r := setGauge r "pv_exported_energy_kwh"
                          (exportedEnergy total_energy)
                        let r := setGauge r "pv_self_use_energy_kwh"
                          (selfUseEnergy total_energy)
                        r
                      else r
                    else r
                  else r
                else r
              else r
            else r
          else r
        else r
      else r

/-- One iteration of the batch `__main__` loop
(`prometheus_exporter.py`, lines 86–95): load, then update; any exception
escaping the update is caught at line 93 and the loop sleeps. -/
def run_cycle (fs : FileState) (r : Registry ℚ) : Registry ℚ :=
  update_metrics (load_pv_data fs) r

/-- Fields extracted from the weather API JSON by
`exporter_live.py` (lines 55–58). -/
structure WeatherReading where
  cloud_cover : ℝ
  temp : ℝ
  humidity : ℝ
  wind_speed : ℝ

/-- Names of the seven gauges of `exporter_live.py` (lines 13–19), in
declaration order. -/
def liveGaugeNames : List String :=
  ["pv_estimated_power_watts", "pv_cloud_cover_percent",
   "pv_temperature_celsius", "pv_humidity_percent", "pv_wind_speed_mps",
   "pv_uv_index", "pv_efficiency_percent"]

/-- The registry after the module-level `Gauge(...)` calls of
`exporter_live.py`. -/
noncomputable def liveStartupRegistry : Registry ℝ :=
  liveGaugeNames.foldl (fun r n => register r n 0) []

/-- Python: `uv_index = 5  # Default` (`exporter_live.py`, line 59). -/
noncomputable def uv_index_default : ℝ := 5

/-- Python: `fetch_and_update_metrics` (`exporter_live.py`, lines 46–78): a fetch
failure is caught by the `except` and leaves the registry untouched; on
success all seven gauges are set in source order. -/
noncomputable def fetch_and_update_metrics (data : Option WeatherReading)
    (current_hour : ℕ) (r : Registry ℝ) : Registry ℝ :=
  match data with
  | none => r
  | some d =>
      let estimated_power := ExporterLive.calculate_estimated_solar_power
        d.cloud_cover uv_index_default current_hour
      let efficiency := (100 - d.cloud_cover) * 0.8
      let r := setGauge r "pv_estimated_power_watts" estimated_power
      let r := setGauge r "pv_cloud_cover_percent" d.cloud_cover
      let r := setGauge r "pv_temperature_celsius" d.temp
      let r := setGauge r "pv_humidity_percent" d.humidity
      let r := setGauge r "pv_wind_speed_mps" d.wind_speed
      let r := setGauge r "pv_uv_index" uv_index_default
      let r := setGauge r "pv_efficiency_percent" efficiency
      r

/-- Setting a gauge value never changes the registered names. -/
lemma gaugeNames_setGauge {α : Type} (r : Registry α) (n : String) (v : α) :
    gaugeNames (setGauge r n v) = gaugeNames r := by
  unfold gaugeNames setGauge
  rw [List.map_map]
  apply List.map_congr_left
  intro p _
  by_cases h : p.1 = n
  · simp [h]
  · simp [h]


/-- C9: in both exporters the registered gauge set is exactly the one
created at startup and is invariant under the update step — updates only
set values of existing gauges and register nothing, on every path,
partial-failure paths included. -/
theorem c9_gauge_set_fixed :
    (∀ (fs : FileState) (r : Registry ℚ),
        gaugeNames (run_cycle fs r) = gaugeNames r) ∧
    (∀ (data : Option WeatherReading) (hr : ℕ) (r : Registry ℝ),
        gaugeNames (fetch_and_update_metrics data hr r) = gaugeNames r) ∧
    gaugeNames batchStartupRegistry = batchGaugeNames ∧
    gaugeNames liveStartupRegistry = liveGaugeNames := by
  refine ⟨?_, ?_, ?_, ?_⟩
  · intro fs r
    cases fs with
    | missing => rfl
    | empty => rfl
    | malformed => rfl
    | ok df =>
        obtain ⟨cols, rows⟩ := df
        cases rows with
        | nil => rfl
        | cons row rest =>
            simp only [run_cycle, load_pv_data, update_metrics]
            repeat' split
            all_goals simp [gaugeNames_setGauge]
  · intro data hr r
    cases data with
    | none => rfl
    | some d =>
        simp only [fetch_and_update_metrics, gaugeNames_setGauge]
  · rfl
  · rfl

/-- The startup registry, written out. -/
lemma batchStartupRegistry_eq :
    batchStartupRegistry =
      [("pv_power_dc1_watts", 0), ("pv_power_dc2_watts", 0),
       ("pv_power_ac_watts", 0), ("pv_energy_today_kwh", 0),
       ("pv_energy_total_kwh", 0), ("pv_module_temperature_celsius", 0),
       ("pv_ambient_temperature_celsius", 0), ("pv_voltage_dc1_volts", 0),
       ("pv_voltage_dc2_volts", 0), ("pv_total_dc_power_watts", 0),
       ("pv_efficiency_percent", 0), ("pv_exported_energy_kwh", 0),
       ("pv_self_use_energy_kwh", 0)] := rfl

/-- A data row whose `Energie_Heute (kWh)` column reads 1. -/
def rowEnergyOne : Sample :=
  ⟨0, 0, 0, 1, 0, 0, 0, 0, 0⟩

/-- A data row whose `Energie_Heute (kWh)` column reads 2. -/
def rowEnergyTwo : Sample :=
  ⟨0, 0, 0, 2, 0, 0, 0, 0, 0⟩

/-- A well-formed two-row file with energy-today column [1, 2]. -/
def frameOneTwo : PvFrame :=
  ⟨expectedColumns, [rowEnergyOne, rowEnergyTwo]⟩

/-- A well-formed one-row file with energy-today column [2] — the same last
row as `frameOneTwo`. -/
def frameTwo : PvFrame :=
  ⟨expectedColumns, [rowEnergyTwo]⟩

/-- C6 (counterexample): two well-formed files with the same latest row but
different earlier rows publish different exported-energy gauge values,
because the code sums the whole `Energie_Heute (kWh)` column
(`total_energy = df["Energie_Heute (kWh)"].sum()`), not just the last row. -/
theorem c6_latest_row_counterexample :
    frameOneTwo.rows.getLast? = frameTwo.rows.getLast? ∧
      getGauge (run_cycle (FileState.ok frameOneTwo) batchStartupRegistry)
          "pv_exported_energy_kwh" ≠
        getGauge (run_cycle (FileState.ok frameTwo) batchStartupRegistry)
          "pv_exported_energy_kwh" := by
  constructor
  · rfl
  · simp [run_cycle, load_pv_data, update_metrics, setGauge, getGauge,
      batchStartupRegistry_eq, exportedEnergy, frameOneTwo, frameTwo,
      expectedColumns, rowEnergyOne, rowEnergyTwo]
    norm_num

set_option maxHeartbeats 1600000 in
/-- C6 (amended): on well-formed files (all expected columns present) the
exported-energy and self-use-energy gauges are the fixed split ratios
applied to the sum of the `Energie_Heute (kWh)` column over all rows of the
file, while every other gauge of the cycle depends only on the latest row
(files with equal last rows agree on all of them). -/
theorem c6_derived_from_latest_amended (row row' : Sample)
    (rest rest' : List Sample)
    (hlast : rest.getLastD row = rest'.getLastD row') :
    getGauge (run_cycle (FileState.ok ⟨expectedColumns, row :: rest⟩)
        batchStartupRegistry) "pv_exported_energy_kwh" =
      some (exportedEnergy (((row :: rest).map Sample.energy_today).sum)) ∧
    getGauge (run_cycle (FileState.ok ⟨expectedColumns, row :: rest⟩)
        batchStartupRegistry) "pv_self_use_energy_kwh" =
      some (selfUseEnergy (((row :: rest).map Sample.energy_today).sum)) ∧
    (∀ name, name ∈ batchGaugeNames → name ≠ "pv_exported_energy_kwh" →
      name ≠ "pv_self_use_energy_kwh" →
      getGauge (run_cycle (FileState.ok ⟨expectedColumns, row :: rest⟩)
          batchStartupRegistry) name =
        getGauge (run_cycle (FileState.ok ⟨expectedColumns, row' :: rest'⟩)
          batchStartupRegistry) name) := by
  refine ⟨?_, ?_, ?_⟩
  · simp [run_cycle, load_pv_data, update_metrics, setGauge, getGauge,
      batchStartupRegistry_eq, expectedColumns]
  · simp [run_cycle, load_pv_data, update_metrics, setGauge, getGauge,
      batchStartupRegistry_eq, expectedColumns]
  · intro name hmem hne1 hne2
    have hlast' : rest.getLast?.getD row = rest'.getLast?.getD row' := by
      simpa using hlast
    simp only [batchGaugeNames, List.mem_cons, List.mem_singleton,
      List.not_mem_nil, or_false] at hmem
    rcases hmem with rfl | rfl | rfl | rfl | rfl | rfl | rfl | rfl | rfl |
      rfl | rfl | rfl | rfl
    all_goals first
      | (exact absurd rfl hne1)
      | (exact absurd rfl hne2)
      | (simp [run_cycle, load_pv_data, update_metrics, setGauge, getGauge,
          batchStartupRegistry_eq, expectedColumns, hlast'])

/-- C6 amended witness: for the well-formed files `frameOneTwo` and
`frameTwo` — equal last rows — the split gauges carry the column sums and
the per-sample gauges agree. -/
theorem c6_derived_from_latest_amended_witness :
    ([rowEnergyTwo] : List Sample).getLastD rowEnergyOne =
        ([] : List Sample).getLastD rowEnergyTwo ∧
      (getGauge (run_cycle (FileState.ok
            ⟨expectedColumns, [rowEnergyOne, rowEnergyTwo]⟩)
            batchStartupRegistry) "pv_exported_energy_kwh" =
          some (exportedEnergy
            ((([rowEnergyOne, rowEnergyTwo] : List Sample).map
              Sample.energy_today).sum)) ∧
        getGauge (run_cycle (FileState.ok
            ⟨expectedColumns, [rowEnergyOne, rowEnergyTwo]⟩)
            batchStartupRegistry) "pv_self_use_energy_kwh" =
          some (selfUseEnergy
            ((([rowEnergyOne, rowEnergyTwo] : List Sample).map
              Sample.energy_today).sum)) ∧
        (∀ name, name ∈ batchGaugeNames → name ≠ "pv_exported_energy_kwh" →
          name ≠ "pv_self_use_energy_kwh" →
          getGauge (run_cycle (FileState.ok
              ⟨expectedColumns, [rowEnergyOne, rowEnergyTwo]⟩)
              batchStartupRegistry) name =
            getGauge (run_cycle (FileState.ok
              ⟨expectedColumns, [rowEnergyTwo]⟩)
              batchStartupRegistry) name)) :=
  ⟨rfl, c6_derived_from_latest_amended rowEnergyOne rowEnergyTwo
    [rowEnergyTwo] [] rfl⟩
